import Mathlib

/-!
Verification of the mcp_router routing engine against its specification.

The development is a shallow embedding of the Python sources under `src/`:

* `src/core/exceptions.py`  → `PyExc` with its `message` and `code` views
* `src/utils/validator.py`  → `InputValidator.*` (validators and the path
  sanitiser, with POSIX paths modelled lexically)
* `src/mcp/transport.py`    → `create_transport`
* `src/mcp/client.py`       → `MCPClientInstance.*` and `MCPClientManager.*`
  (the event loop is modelled by explicit state passing; the behaviour of a
  downstream child process and the wall-clock duration of each awaited step
  are oracle parameters, since they are external to the program)
* `src/mcp/router.py`       → `MCPRouter.*`
* `src/mcp/server.py`       → `list_tools_impl` / `call_tool_impl`

Conventions: Python floats used as second counts are modelled as `Nat`
(no claim depends on fractional seconds); `asyncio.wait_for t timeout`
times out exactly when the awaited step takes strictly more than the
timeout; a Python `dict` is an insertion-ordered association list.
-/

/-- A Python value, as far as the router manipulates one (JSON-like data). -/
inductive PyValue where
  | pstr (s : String)
  | pbool (b : Bool)
  | pint (n : Int)
  | plist (xs : List PyValue)
  | pdict (kvs : List (String × PyValue))
  | pnone

/-- The exception taxonomy of `src/core/exceptions.py`, together with the
Python builtins the sources raise (`PermissionError`, `ValueError`,
`NotImplementedError`, `KeyError`, `UnboundLocalError`). -/
inductive PyExc where
  | configurationError (msg : String)
  | validationError (msg : String)
  | instanceNotFoundError (instanceName : String)
  | toolNotFoundError (toolName instanceName : String)
  | timeoutError (timeout : Nat)
  | transportError (msg : String)
  | securityError (msg : String)
  | permissionError (msg : String)
  | valueError (msg : String)
  | notImplementedError (msg : String)
  | keyError (key : String)
  | unboundLocalError (varName : String)
deriving Repr, DecidableEq

/-- `str(e)` for each exception (the `message` attribute for the
`MCPRouterException` subclasses, the Python rendering for the builtins). -/
def PyExc.message : PyExc → String
  | .configurationError m => m
  | .validationError m => m
  | .instanceNotFoundError n => s!"Instance not found: {n}"
  | .toolNotFoundError t n => s!"Tool '{t}' not found in instance '{n}'"
  | .timeoutError t => s!"Timeout exceeded: {t}s"
  | .transportError m => m
  | .securityError m => m
  | .permissionError m => m
  | .valueError m => m
  | .notImplementedError m => m
  | .keyError k => s!"'{k}'"
  | .unboundLocalError v =>
      s!"cannot access local variable '{v}' where it is not associated with a value"

/-- `getattr(e, "code", "INTERNAL_ERROR")`: the wire code carried by the
`MCPRouterException` subclasses; builtins have no `code` attribute. -/
def PyExc.code : PyExc → String
  | .configurationError _ => "CONFIG_ERROR"
  | .validationError _ => "VALIDATION_ERROR"
  | .instanceNotFoundError _ => "INSTANCE_NOT_FOUND"
  | .toolNotFoundError _ _ => "TOOL_NOT_FOUND"
  | .timeoutError _ => "TIMEOUT"
  | .transportError _ => "TRANSPORT_ERROR"
  | .securityError _ => "SECURITY_ERROR"
  | _ => "INTERNAL_ERROR"

mutual

/-- `json.dumps(v, ensure_ascii=False)` up to whitespace/escaping: no claim
depends on the exact rendering, only on which value is serialised. -/
def json_dumps : PyValue → String
  | .pstr s => "\"" ++ s ++ "\""
  | .pbool true => "true"
  | .pbool false => "false"
  | .pint n => toString n
  | .plist xs => "[" ++ String.intercalate ", " (json_dumps_list xs) ++ "]"
  | .pdict kvs => "\x7b" ++ String.intercalate ", " (json_dumps_dict kvs) ++ "\x7d"
  | .pnone => "null"

/-- Serialisations of the elements of a list value. -/
def json_dumps_list : List PyValue → List String
  | [] => []
  | x :: xs => json_dumps x :: json_dumps_list xs

/-- Serialisations of the entries of a dict value. -/
def json_dumps_dict : List (String × PyValue) → List String
  | [] => []
  | (k, v) :: kvs => ("\"" ++ k ++ "\": " ++ json_dumps v) :: json_dumps_dict kvs

end

/-- Assignment into a Python dict modelled as an association list: an
existing key keeps its position, a new key is appended. -/
def dictSet {α : Type} : List (String × α) → String → α → List (String × α)
  | [], k, v => [(k, v)]
  | p :: rest, k, v =>
      if p.1 = k then (k, v) :: rest else p :: dictSet rest k v

/-- Deletion from a Python dict modelled as an association list. -/
def dictDel {α : Type} (d : List (String × α)) (k : String) :
    List (String × α) :=
  d.filter (fun p => p.1 ≠ k)

namespace InputValidator

/-- One character of `PROVIDER_NAME_PATTERN = ^[a-zA-Z0-9_-]+$`. -/
def providerNameChar (c : Char) : Bool :=
  c.isAlpha || c.isDigit || c = '_' || c = '-'

/-- One character of `INSTANCE_NAME_PATTERN = ^[a-zA-Z0-9_一-龥-]+$`. -/
def instanceNameChar (c : Char) : Bool :=
  c.isAlpha || c.isDigit || c = '_' || c = '-' ||
    (0x4e00 ≤ c.val && c.val ≤ 0x9fa5)

/-- `InputValidator.validate_provider_name`. -/
def validate_provider_name (name : String) : Except PyExc String :=
  if name = "" then
    .error (.validationError "Provider name cannot be empty")
  else if !(name.data.all providerNameChar) then
    .error (.validationError
      (s!"Invalid provider name: '{name}'. " ++
        "Only alphanumeric characters, underscores, and hyphens are allowed"))
  else if name.length > 100 then
    .error (.validationError "Provider name too long (max 100 characters)")
  else .ok name

/-- `InputValidator.validate_instance_name`. -/
def validate_instance_name (name : String) : Except PyExc String :=
  if name = "" then
    .error (.validationError "Instance name cannot be empty")
  else if !(name.data.all instanceNameChar) then
    .error (.validationError
      (s!"Invalid instance name: '{name}'. " ++
        "Only alphanumeric characters, underscores, hyphens, and Chinese characters are allowed"))
  else if name.length > 100 then
    .error (.validationError "Instance name too long (max 100 characters)")
  else .ok name

/-- The `dangerous_chars` list of `validate_command` / `validate_command_args`
(semicolon, pipe, ampersand, dollar, backquote, newline, carriage return). -/
def dangerousChars : List Char :=
  [';', '|', '&', '$', Char.ofNat 96, '\n', '\r']

/-- `InputValidator.validate_command`. -/
def validate_command (command : String) : Except PyExc String :=
  if command = "" then
    .error (.validationError "Command cannot be empty")
  else
    match dangerousChars.find? (fun c => command.data.contains c) with
    | some c =>
        .error (.validationError
          (s!"Dangerous character '{c}' detected in command. " ++
            "Commands with shell operators are not allowed"))
    | none =>
        if command.length > 1000 then
          .error (.validationError "Command too long (max 1000 characters)")
        else .ok command

/-- The first validation failure among the entries of `args`, if any
(`validate_command_args` checks each argument in order: length first,
then the dangerous-character scan). -/
def argError (a : String) : Option PyExc :=
  if a.length > 1000 then
    some (.validationError "Argument too long (max 1000 characters)")
  else
    match dangerousChars.find? (fun c => a.data.contains c) with
    | some c =>
        some (.validationError
          (s!"Dangerous character '{c}' detected in argument. " ++
            "Arguments with shell operators are not allowed"))
    | none => none

/-- `InputValidator.validate_command_args` (the `isinstance` checks are
enforced by typing). -/
def validate_command_args (args : List String) : Except PyExc (List String) :=
  if args.length > 100 then
    .error (.validationError "Too many arguments (max 100)")
  else
    match args.findSome? argError with
    | some e => .error e
    | none => .ok args

/-- Key shape of `validate_env_vars`: `^[a-zA-Z_][a-zA-Z0-9_]*$`. -/
def envKeyOk (k : String) : Bool :=
  match k.data with
  | [] => false
  | c :: rest =>
      (c.isAlpha || c = '_') && rest.all (fun d => d.isAlpha || d.isDigit || d = '_')

/-- The first validation failure among the entries of `env`, if any. -/
def envError (kv : String × String) : Option PyExc :=
  if kv.1.length > 200 || kv.2.length > 2000 then
    some (.validationError
      "Environment variable key or value too long (max key: 200, value: 2000)")
  else if !(envKeyOk kv.1) then
    some (.validationError
      (s!"Invalid environment variable name: '{kv.1}'. " ++
        "Must start with letter or underscore and contain only alphanumeric characters and underscores"))
  else none

/-- `InputValidator.validate_env_vars`. -/
def validate_env_vars (env : List (String × String)) :
    Except PyExc (List (String × String)) :=
  if env.length > 100 then
    .error (.validationError "Too many environment variables (max 100)")
  else
    match env.findSome? envError with
    | some e => .error e
    | none => .ok env

end InputValidator

/-- The configuration dict read from `mcp_settings.json` (or passed to
`add`), restricted to the keys the sources read; an absent key is `none`.
(The `isinstance` checks of the validator are enforced by this typing;
a key bound to JSON `null` is treated as absent, which the sources
treat identically for the optional keys.) -/
structure RawConfig where
  name : Option String := Option.none
  type : Option String := Option.none
  command : Option String := Option.none
  args : Option (List String) := Option.none
  env : Option (List (String × String)) := Option.none
  isActive : Option Bool := Option.none
  metadata : Option (List (String × PyValue)) := Option.none
  provider : Option String := Option.none

namespace InputValidator

/-- `InputValidator.validate_config`: required keys first (in the order of
the source's `required_fields` list), then the field validators. -/
def validate_config (config : RawConfig) : Except PyExc RawConfig := do
  if config.provider.isNone then
    throw (.validationError "Missing required field: provider")
  if config.name.isNone then
    throw (.validationError "Missing required field: name")
  if config.type.isNone then
    throw (.validationError "Missing required field: type")
  if config.command.isNone then
    throw (.validationError "Missing required field: command")
  let _ ← validate_provider_name (config.provider.getD "")
  let _ ← validate_instance_name (config.name.getD "")
  if !(["stdio", "sse", "http"].contains (config.type.getD "")) then
    throw (.validationError
      (s!"Invalid transport type: {config.type.getD String.instInhabited.default}. " ++
        "Must be one of: stdio, sse, http"))
  let _ ← validate_command (config.command.getD "")
  let _ ← validate_command_args (config.args.getD [])
  let _ ← validate_env_vars (config.env.getD [])
  match config.metadata with
  | some md =>
      if md.length > 50 then
        throw (.validationError "Too many metadata entries (max 50)")
  | _ => pure ()
  return config

end InputValidator

/-- A POSIX pure path: whether it is absolute, and its components
(`pathlib` drops empty and "." components when parsing). -/
structure PurePath where
  absolute : Bool
  comps : List String
deriving Repr, DecidableEq

/-- Split a character sequence at "/" separators (the accumulator holds
the component being read). -/
def splitComps : List Char → String → List String
  | [], acc => [acc]
  | c :: rest, acc =>
      if c = '/' then acc :: splitComps rest "" else splitComps rest (acc.push c)

/-- Whether a path string is absolute. -/
def startsWithSlash (s : String) : Bool :=
  match s.data with
  | c :: _ => c = '/'
  | [] => false

/-- Parse a path string the way `pathlib.Path` does. -/
def parsePath (s : String) : PurePath :=
  { absolute := startsWithSlash s,
    comps := (splitComps s.data "").filter (fun c => c != "" && c != ".") }

/-- `base / p`: an absolute right operand replaces the left one. -/
def joinPath (base p : PurePath) : PurePath :=
  if p.absolute then p
  else { absolute := base.absolute, comps := base.comps ++ p.comps }

/-- Lexical ".." elimination ("`..`" at the root stays at the root). -/
def normalizeComps (cs : List String) : List String :=
  cs.foldl (fun acc c => if c = ".." then acc.dropLast else acc ++ [c]) []

/-- `Path.resolve()` in a symlink-free filesystem with working directory
`cwd`: make absolute, then eliminate "..". The result is the component
list of an absolute path. -/
def resolvePath (cwd : List String) (p : PurePath) : List String :=
  normalizeComps ((if p.absolute then [] else cwd) ++ p.comps)

/-- `str(...)` of a resolved (absolute) path. -/
def renderAbs (comps : List String) : String :=
  "/" ++ String.intercalate "/" comps

/-- `InputValidator.validate_path`: resolve `base_path` and `base / path`
against the working directory `cwd`, then the lexical-prefix check
`str(target).startswith(str(base))`.  On failure, the inner
ValidationError is rewrapped by the generic handler of the source. -/
def InputValidator.validate_path (cwd : List String) (path : String)
    (base_path : String) : Except PyExc (List String) :=
  let base := resolvePath cwd (parsePath base_path)
  let target :=
    resolvePath cwd (joinPath { absolute := true, comps := base } (parsePath path))
  if (renderAbs base).data.isPrefixOf (renderAbs target).data then .ok target
  else
    .error (.validationError
      s!"Invalid path: Path traversal detected: '{path}' is outside base directory")

/-- A downstream byte stream, as produced by the transport factory. Only
the stdio variant is ever constructed by the source. -/
inductive Transport where
  | stdio (command : String) (args : List String) (env : List (String × String))
deriving Repr, DecidableEq

/-- `create_transport` of `src/mcp/transport.py`. -/
def create_transport (transport_type command : String) (args : List String)
    (env : List (String × String)) : Except PyExc Transport :=
  if transport_type = "stdio" then .ok (.stdio command args env)
  else if transport_type = "sse" then
    .error (.notImplementedError "SSE transport not yet implemented")
  else if transport_type = "http" then
    .error (.notImplementedError "HTTP transport not yet implemented")
  else .error (.valueError s!"Unsupported transport type: {transport_type}")

/-- One content part of a downstream `CallToolResult`, as the façade
inspects it (`hasattr(item, "text")`, `hasattr(item, "data")`, else
`str(item)`). -/
inductive ContentItem where
  | text (s : String)
  | image (data : String)
  | other (asString : String)
deriving Repr, DecidableEq

/-- The externally-determined behaviour of a downstream child for one
`tools/call` round-trip: it replies with some content after a wall-clock
duration, or the awaited call raises. -/
inductive Downstream where
  | replies (duration : Nat) (content : List ContentItem)
  | raises (e : PyExc)

/-- The observable state of `MCPClientInstance`: its configuration
attributes, the cached tool catalogue and the connection flag
(`_session is not None` holds exactly when `_connected` does, so one
flag models both). -/
structure MCPClientInstance where
  name : String
  provider : String
  command : String
  args : List String
  transport_type : String
  env : List (String × String)
  is_active : Bool
  metadata : List (String × PyValue)
  timeout : Nat
  tools : List (String × PyValue)
  connected : Bool

/-- Wall-clock durations of the awaited steps of one `connect()` attempt
(oracle: they depend on the child process, not on the router). -/
structure HandshakeDurations where
  transport_open : Nat := 0
  session_open : Nat := 0
  init_step : Nat := 0
  tools_list : Nat := 0
deriving Repr, DecidableEq

/-- `MCPClientInstance.connect`: re-entry while connected is a logged
no-op; transport creation failures and all non-`asyncio.TimeoutError`
exceptions are rewrapped as `ConfigurationError` by the generic handler;
the transport and session openings are each awaited under
`asyncio.wait_for(..., timeout=self.timeout)`; `self._session.initialize()`
is awaited with no `wait_for`, so `init_step` is unbounded; the
`tools/list` timeout is converted to `exceptions.TimeoutError` inside
`_fetch_tools` and therefore rewrapped by the generic handler of
`connect`.  On success the catalogue is the fetched one. -/
def MCPClientInstance.connect (i : MCPClientInstance) (hs : HandshakeDurations)
    (fetched : List (String × PyValue)) : Except PyExc MCPClientInstance :=
  if i.connected then .ok i
  else
    match create_transport i.transport_type i.command i.args i.env with
    | .error e => .error (.configurationError s!"Failed to connect: {e.message}")
    | .ok _stream =>
        if hs.transport_open > i.timeout then .error (.timeoutError i.timeout)
        else if hs.session_open > i.timeout then .error (.timeoutError i.timeout)
        else if hs.tools_list > i.timeout then
          .error (.configurationError
            s!"Failed to connect: Timeout exceeded: {i.timeout}s")
        else .ok { i with connected := true, tools := fetched }

/-- `MCPClientInstance.disconnect` (exceptions are logged, never raised). -/
def MCPClientInstance.disconnect (i : MCPClientInstance) : MCPClientInstance :=
  if !i.connected then i
  else { i with connected := false, tools := [] }

/-- `MCPClientInstance.call_tool`: the connected guard, the active guard,
the catalogue guard, then the downstream round-trip under
`asyncio.wait_for(..., timeout=self.timeout)`; a downstream exception is
re-raised unchanged. -/
def MCPClientInstance.call_tool (i : MCPClientInstance) (tool_name : String)
    (_arguments : List (String × PyValue)) (child : Downstream) :
    Except PyExc (List ContentItem) :=
  if !i.connected then
    .error (.configurationError s!"Instance '{i.name}' not connected")
  else if !i.is_active then
    .error (.configurationError s!"Instance '{i.name}' is not active")
  else if !((i.tools.map Prod.fst).contains tool_name) then
    .error (.toolNotFoundError tool_name i.name)
  else
    match child with
    | .replies duration content =>
        if duration > i.timeout then .error (.timeoutError i.timeout)
        else .ok content
    | .raises e => .error e

/-- `MCPClientInstance.to_dict`. -/
def MCPClientInstance.to_dict (i : MCPClientInstance) : List (String × PyValue) :=
  [("name", .pstr i.name),
   ("provider", .pstr i.provider),
   ("active", .pbool i.is_active),
   ("connected", .pbool i.connected),
   ("transport_type", .pstr i.transport_type),
   ("tools_count", .pint i.tools.length),
   ("metadata", .pdict i.metadata)]

/-- The registry: `MCPClientManager`'s `data_path`, default timeout and the
insertion-ordered `_instances` dict. -/
structure MCPClientManager where
  data_path : String
  timeout : Nat
  instances : List (String × MCPClientInstance)

/-- The on-disk files the manager reads and writes: path → stored config. -/
def Disk : Type := List (String × RawConfig)

/-- `MCPClientManager._create_instance_from_config`: fill in the provider
default, validate, build the instance, connect when active (a connect
failure propagates and the instance is NOT registered), then register. -/
def create_instance_from_config (m : MCPClientManager) (config : RawConfig)
    (provider : String) (hs : HandshakeDurations)
    (fetched : List (String × PyValue)) : Except PyExc MCPClientManager := do
  let validated ← InputValidator.validate_config
    { config with provider := some (config.provider.getD provider) }
  let inst : MCPClientInstance :=
    { name := validated.name.getD ""
      provider := validated.provider.getD ""
      command := validated.command.getD ""
      args := validated.args.getD []
      transport_type := validated.type.getD "stdio"
      env := validated.env.getD []
      is_active := validated.isActive.getD true
      metadata := validated.metadata.getD []
      timeout := m.timeout
      tools := []
      connected := false }
  let inst ← if inst.is_active then inst.connect hs fetched else pure inst
  return { m with instances := dictSet m.instances inst.name inst }

/-- One entry handled by `_load_config_file` (one top-level object, or one
entry of an `mcpServers` mapping), together with the connect oracle of
the session it creates. -/
structure LoadEntry where
  config : RawConfig
  hs : HandshakeDurations := {}
  fetched : List (String × PyValue) := []

/-- `MCPClientManager._load_config_file`: create an instance per entry; the
first exception aborts the remaining entries of this file and propagates,
but instances already registered stay registered (state is mutated in
place in the source). -/
def load_config_file : MCPClientManager → String → List LoadEntry →
    MCPClientManager × Except PyExc Unit
  | m, _, [] => (m, .ok ())
  | m, provider, e :: rest =>
      match create_instance_from_config m e.config provider e.hs e.fetched with
      | .ok m' => load_config_file m' provider rest
      | .error err => (m, .error err)

/-- `MCPClientManager.load_configurations`: handle every discovered
`<provider>/mcp_settings.json`; a failure is logged and the loop
continues with the next file. -/
def load_configurations (m : MCPClientManager)
    (files : List (String × List LoadEntry)) : MCPClientManager :=
  files.foldl (fun acc f => (load_config_file acc f.1 f.2).1) m

/-- `MCPClientManager.add_instance`: set `config["provider"]`, validate,
refuse a duplicate name before any side effect, then write the file
(when `save_to_file`) and create+register the instance.  The pair of
returned states reflects that a failure after the file write leaves the
write in place. -/
def add_instance (m : MCPClientManager) (disk : Disk) (provider : String)
    (config : RawConfig) (save_to_file : Bool) (hs : HandshakeDurations)
    (fetched : List (String × PyValue)) :
    Except PyExc String × MCPClientManager × Disk :=
  match InputValidator.validate_config { config with provider := some provider } with
  | .error e => (.error e, m, disk)
  | .ok validated =>
      let instance_name := validated.name.getD ""
      if (m.instances.map Prod.fst).contains instance_name then
        (.error (.configurationError s!"Instance '{instance_name}' already exists"),
          m, disk)
      else
        let disk' :=
          if save_to_file then
            dictSet disk (m.data_path ++ "/" ++ provider ++ "/mcp_settings.json")
              validated
          else disk
        match create_instance_from_config m validated provider hs fetched with
        | .ok m' => (.ok instance_name, m', disk')
        | .error e => (.error e, m, disk')

/-- `MCPClientManager.remove_instance`: unknown name raises; otherwise
disconnect, delete the file (when `delete_file`), drop the mapping. -/
def remove_instance (m : MCPClientManager) (disk : Disk)
    (instance_name : String) (delete_file : Bool) :
    Except PyExc Unit × MCPClientManager × Disk :=
  match m.instances.lookup instance_name with
  | Option.none => (.error (.instanceNotFoundError instance_name), m, disk)
  | some inst =>
      let m' :=
        { m with instances := dictSet m.instances instance_name inst.disconnect }
      let disk' :=
        if delete_file then
          dictDel disk (m.data_path ++ "/" ++ inst.provider ++ "/mcp_settings.json")
        else disk
      (.ok (), { m' with instances := dictDel m'.instances instance_name }, disk')

/-- `MCPClientManager.enable_instance`: unknown name raises; otherwise set
`is_active := true` (an in-place mutation, visible even if the connect
below fails) and connect when not connected. -/
def enable_instance (m : MCPClientManager) (instance_name : String)
    (hs : HandshakeDurations) (fetched : List (String × PyValue)) :
    Except PyExc Unit × MCPClientManager :=
  match m.instances.lookup instance_name with
  | Option.none => (.error (.instanceNotFoundError instance_name), m)
  | some inst =>
      let inst := { inst with is_active := true }
      if inst.connected then
        (.ok (), { m with instances := dictSet m.instances instance_name inst })
      else
        match inst.connect hs fetched with
        | .ok inst' =>
            (.ok (), { m with instances := dictSet m.instances instance_name inst' })
        | .error e =>
            (.error e, { m with instances := dictSet m.instances instance_name inst })

/-- `MCPClientManager.disable_instance`: unknown name raises; otherwise
clear `is_active` (no disconnect). -/
def disable_instance (m : MCPClientManager) (instance_name : String) :
    Except PyExc Unit × MCPClientManager :=
  match m.instances.lookup instance_name with
  | Option.none => (.error (.instanceNotFoundError instance_name), m)
  | some inst =>
      let inst' := { inst with is_active := false }
      (.ok (), { m with instances := dictSet m.instances instance_name inst' })

/-- `MCPClientManager.get_instance`. -/
def get_instance (m : MCPClientManager) (instance_name : String) :
    Except PyExc MCPClientInstance :=
  match m.instances.lookup instance_name with
  | Option.none => .error (.instanceNotFoundError instance_name)
  | some inst => .ok inst

/-- `MCPClientManager.list_instances`: `to_dict` of each registered
instance, in insertion order. -/
def list_instances (m : MCPClientManager) : List (List (String × PyValue)) :=
  m.instances.map (fun p => p.2.to_dict)

/-- `MCPClientManager.get_all_tools`: instance name → list of tool records,
for the active and connected instances only. -/
def get_all_tools (m : MCPClientManager) : List (String × PyValue) :=
  (m.instances.filter (fun p => p.2.is_active && p.2.connected)).map
    (fun p => (p.1, PyValue.plist (p.2.tools.map Prod.snd)))

/-- The state the router closes over: the manager's registry, the files on
disk (explicit here, ambient in Python), and the `_current_instance`
hint. -/
structure RouterState where
  manager : MCPClientManager
  disk : Disk
  current_instance : Option String := Option.none

namespace MCPRouter

/-- `MCPRouter.use`. -/
def use (r : RouterState) (instance_name : String) :
    Except PyExc PyValue × RouterState :=
  match get_instance r.manager instance_name with
  | .error e => (.error e, r)
  | .ok inst =>
      (.ok (.pdict
        [("instance", .pstr instance_name),
         ("tools", .plist ((inst.tools.map Prod.fst).map PyValue.pstr)),
         ("active", .pbool inst.is_active)]),
       { r with current_instance := some instance_name })

/-- `MCPRouter.list`. -/
def list (r : RouterState) : PyValue :=
  .plist ((list_instances r.manager).map PyValue.pdict)

/-- `MCPRouter.help`. -/
def help (r : RouterState) : PyValue :=
  .pdict (get_all_tools r.manager)

/-- `MCPRouter.add`: delegate to the manager, catching every exception into
an `"Error: …"` status string. -/
def add (r : RouterState) (provider_name : String) (config : RawConfig)
    (hs : HandshakeDurations) (fetched : List (String × PyValue)) :
    String × RouterState :=
  match add_instance r.manager r.disk provider_name config true hs fetched with
  | (.ok _name, m', d') => ("Done", { r with manager := m', disk := d' })
  | (.error e, m', d') =>
      ("Error: " ++ e.message, { r with manager := m', disk := d' })

/-- `MCPRouter.call`. -/
def call (r : RouterState) (instance_name tool_name : String)
    (kwargs : List (String × PyValue)) (child : Downstream) :
    Except PyExc (List ContentItem) × RouterState :=
  match get_instance r.manager instance_name with
  | .error e => (.error e, r)
  | .ok inst => (inst.call_tool tool_name kwargs child, r)

/-- `MCPRouter.remove`. -/
def remove (r : RouterState) (instance_name : String) : String × RouterState :=
  match remove_instance r.manager r.disk instance_name true with
  | (.ok _, m', d') =>
      let cur :=
        if r.current_instance = some instance_name then Option.none
        else r.current_instance
      ("Done", { manager := m', disk := d', current_instance := cur })
  | (.error e, m', d') =>
      ("Error: " ++ e.message, { r with manager := m', disk := d' })

/-- `MCPRouter.disable`. -/
def disable (r : RouterState) (instance_name : String) : String × RouterState :=
  match disable_instance r.manager instance_name with
  | (.ok _, m') => ("Done", { r with manager := m' })
  | (.error e, m') => ("Error: " ++ e.message, { r with manager := m' })

/-- `MCPRouter.enable`. -/
def enable (r : RouterState) (instance_name : String)
    (hs : HandshakeDurations) (fetched : List (String × PyValue)) :
    String × RouterState :=
  match enable_instance r.manager instance_name hs fetched with
  | (.ok _, m') => ("Done", { r with manager := m' })
  | (.error e, m') => ("Error: " ++ e.message, { r with manager := m' })

end MCPRouter

/-- The names of the advertised meta-tools, in the order `list_tools_impl`
builds them (the `Tool` records carry schemas no claim mentions, so a
tool is represented by its name). -/
def list_tools_impl (allow_instance_management : Bool) : List String :=
  ["mcp.router.use", "mcp.router.list", "mcp.router.help", "mcp.router.call"] ++
    (if allow_instance_management then
      ["mcp.router.add", "mcp.router.remove", "mcp.router.disable",
        "mcp.router.enable"]
    else [])

/-- The `management_tools` set of `call_tool_impl` (source order). -/
def managementTools : List String :=
  ["mcp.router.add", "mcp.router.remove", "mcp.router.enable",
    "mcp.router.disable"]

/-- The arguments dict of a `tools/call`, restricted to the keys the
dispatch reads; an absent key is `none`. -/
structure CallArgs where
  instance_name : Option String := Option.none
  tool_name : Option String := Option.none
  arguments : Option (List (String × PyValue)) := Option.none
  provider_name : Option String := Option.none
  config : Option RawConfig := Option.none

/-- Everything outside the process that one dispatched call can depend on:
the handshake durations and fetched catalogue of a connect the call may
trigger, and the downstream child's behaviour for a routed `tools/call`. -/
structure Oracle where
  hs : HandshakeDurations := {}
  fetched : List (String × PyValue) := []
  child : Downstream := .raises (.transportError "")

/-- `arguments["key"]` on a dict: raises `KeyError` when absent. -/
def requireArg {α : Type} (x : Option α) (key : String) : Except PyExc α :=
  match x with
  | some v => .ok v
  | Option.none => .error (.keyError key)

/-- One content part converted by the façade's `mcp.router.call` branch. -/
def contentToPy : ContentItem → PyValue
  | .text s => .pdict [("type", .pstr "text"), ("text", .pstr s)]
  | .image d => .pdict [("type", .pstr "image"), ("data", .pstr d)]
  | .other s => .pstr s

/-- The body of the `try` block of `call_tool_impl`: the management
permission gate, then the dispatch switch (source order: use, list, help,
add, call, remove, disable, enable, unknown). -/
def call_tool_try_body (allow_instance_management : Bool) (name : String)
    (args : CallArgs) (r : RouterState) (o : Oracle) :
    Except PyExc PyValue × RouterState :=
  if managementTools.contains name && !allow_instance_management then
    (.error (.permissionError
      (s!"Instance management is disabled. Tool '{name}' is not available. " ++
        "Enable 'server.allow_instance_management' in config.json to use this tool.")),
     r)
  else if name = "mcp.router.use" then
    match requireArg args.instance_name "instance_name" with
    | .error e => (.error e, r)
    | .ok n => MCPRouter.use r n
  else if name = "mcp.router.list" then (.ok (MCPRouter.list r), r)
  else if name = "mcp.router.help" then (.ok (MCPRouter.help r), r)
  else if name = "mcp.router.add" then
    match requireArg args.provider_name "provider_name" with
    | .error e => (.error e, r)
    | .ok p =>
        match requireArg args.config "config" with
        | .error e => (.error e, r)
        | .ok cfg =>
            let res := MCPRouter.add r p cfg o.hs o.fetched
            (.ok (.pstr res.1), res.2)
  else if name = "mcp.router.call" then
    match requireArg args.instance_name "instance_name" with
    | .error e => (.error e, r)
    | .ok n =>
        match requireArg args.tool_name "tool_name" with
        | .error e => (.error e, r)
        | .ok t =>
            match MCPRouter.call r n t (args.arguments.getD []) o.child with
            | (.error e, r') => (.error e, r')
            | (.ok content, r') => (.ok (.plist (content.map contentToPy)), r')
  else if name = "mcp.router.remove" then
    match requireArg args.instance_name "instance_name" with
    | .error e => (.error e, r)
    | .ok n =>
        let res := MCPRouter.remove r n
        (.ok (.pstr res.1), res.2)
  else if name = "mcp.router.disable" then
    match requireArg args.instance_name "instance_name" with
    | .error e => (.error e, r)
    | .ok n =>
        let res := MCPRouter.disable r n
        (.ok (.pstr res.1), res.2)
  else if name = "mcp.router.enable" then
    match requireArg args.instance_name "instance_name" with
    | .error e => (.error e, r)
    | .ok n =>
        let res := MCPRouter.enable r n o.hs o.fetched
        (.ok (.pstr res.1), res.2)
  else (.error (.valueError s!"Unknown tool: {name}"), r)

/-- One `TextContent(type="text", text=…)` part of a façade result. -/
structure TextContent where
  type : String
  text : String
deriving Repr, DecidableEq

/-- `call_tool_impl` of `src/mcp/server.py`.  The `import json` statement
stands inside the `try` block, after the whole dispatch, which makes
`json` a local name of the handler function; every raising path of the
try block raises before that import has run, so the `except` handler's
own `json.dumps` call raises `UnboundLocalError` instead of returning
the serialised error payload, and that exception escapes the handler. -/
def call_tool_impl (allow_instance_management : Bool) (name : String)
    (args : CallArgs) (r : RouterState) (o : Oracle) :
    Except PyExc (List TextContent) × RouterState :=
  match call_tool_try_body allow_instance_management name args r o with
  | (.ok result, r') => (.ok [{ type := "text", text := json_dumps result }], r')
  | (.error _e, r') => (.error (.unboundLocalError "json"), r')

theorem lookup_dictSet {α : Type} (d : List (String × α)) (k : String) (v : α) :
    (dictSet d k v).lookup k = some v := by
  induction d with
  | nil => simp [dictSet, List.lookup]
  | cons p rest ih =>
      by_cases h : p.1 = k
      · simp [dictSet, h, List.lookup]
      · have hne : (k == p.1) = false := by
          rw [beq_eq_false_iff_ne]
          exact fun e => h e.symm
        simp [dictSet, h, List.lookup, hne, ih]

theorem connect_ok_state (i : MCPClientInstance) (hs : HandshakeDurations)
    (fetched : List (String × PyValue)) (j : MCPClientInstance)
    (h : i.connect hs fetched = .ok j) :
    j.connected = true ∧ j.is_active = i.is_active ∧ j.timeout = i.timeout ∧
      j.name = i.name := by
  simp only [MCPClientInstance.connect] at h
  by_cases hc : i.connected
  · simp [hc] at h
    subst h
    exact ⟨hc, rfl, rfl, rfl⟩
  · simp only [hc, if_false] at h
    rcases hcr : create_transport i.transport_type i.command i.args i.env with e | t
    · rw [hcr] at h
      simp at h
    · rw [hcr] at h
      by_cases h1 : hs.transport_open > i.timeout
      · simp [h1] at h
      · by_cases h2 : hs.session_open > i.timeout
        · simp [h1, h2] at h
        · by_cases h3 : hs.tools_list > i.timeout
          · simp [h1, h2, h3] at h
          · simp [h1, h2, h3] at h
            subst h
            exact ⟨rfl, rfl, rfl, rfl⟩

/-- A connected, active instance with one catalogued tool ("ping"),
used as a concrete input by witnesses. -/
def instA : MCPClientInstance :=
  { name := "alpha", provider := "prov_a", command := "echo", args := [],
    transport_type := "stdio", env := [], is_active := true, metadata := [],
    timeout := 30, tools := [("ping", .pdict [("name", .pstr "ping")])],
    connected := true }

/-- A registered but disconnected (and still active) instance. -/
def instB : MCPClientInstance :=
  { instA with name := "beta", tools := [], connected := false }

/-- An empty registry with the default timeout. -/
def mgr0 : MCPClientManager :=
  { data_path := "data", timeout := 30, instances := [] }

/-- A registry holding the connected instance `instA` under "alpha". -/
def mgrA : MCPClientManager := { mgr0 with instances := [("alpha", instA)] }

/-- A registry holding the disconnected instance `instB` under "beta". -/
def mgrB : MCPClientManager := { mgr0 with instances := [("beta", instB)] }

/-- Router state over the empty registry with an empty disk. -/
def rst0 : RouterState := { manager := mgr0, disk := [] }

/-- C1: the claim says a router/dispatch exception inside `tools/call` is
returned as a normal text part holding the JSON object
`(error, code)` and never surfaces as a protocol-level error.  The code
violates this: `import json` stands inside the `try` block after the
dispatch, so on every raising path the handler's own `json.dumps` call
raises `UnboundLocalError`, which escapes `call_tool_impl` — here
evaluated at a `mcp.router.use` call naming an unknown instance. -/
theorem C1_router_error_escapes_handler :
    call_tool_impl false "mcp.router.use"
        { instance_name := some "missing" } rst0 {} =
      (.error (.unboundLocalError "json"), rst0) := rfl

/-- C2: with `allow_instance_management` false, `tools/list` advertises
exactly the four read-only meta-tools, and a `tools/call` naming any of
the four management tools fails with `PermissionError` inside the
dispatch before reaching the router, leaving the registry and disk
untouched. -/
theorem C2_permission_gate (name : String) (args : CallArgs) (r : RouterState)
    (o : Oracle) (h : managementTools.contains name = true) :
    list_tools_impl false =
      ["mcp.router.use", "mcp.router.list", "mcp.router.help",
        "mcp.router.call"] ∧
    call_tool_try_body false name args r o =
      (.error (.permissionError
        (s!"Instance management is disabled. Tool '{name}' is not available. " ++
          "Enable 'server.allow_instance_management' in config.json to use this tool.")),
       r) := by
  refine ⟨rfl, ?_⟩
  have hcond : (managementTools.contains name && !false) = true := by
    rw [h]
    rfl
  unfold call_tool_try_body
  rw [if_pos hcond]

/-- Witness for C2 at the concrete tool name `mcp.router.add`. -/
theorem C2_permission_gate_witness :
    managementTools.contains "mcp.router.add" = true ∧
    call_tool_try_body false "mcp.router.add" {} rst0 {} =
      (.error (.permissionError
        ("Instance management is disabled. Tool 'mcp.router.add' is not available. " ++
          "Enable 'server.allow_instance_management' in config.json to use this tool.")),
       rst0) :=
  ⟨rfl, (C2_permission_gate "mcp.router.add" {} rst0 {} rfl).2⟩

/-- C4 counterexample: the claim says the factory produces a usable stream
for each declared kind, but for "sse" it raises `NotImplementedError`. -/
theorem C4_counterexample :
    ¬ ∃ t, create_transport "sse" "npx" ["server"] [] = .ok t := by
  rintro ⟨t, h⟩
  rw [show create_transport "sse" "npx" ["server"] [] =
      .error (.notImplementedError "SSE transport not yet implemented") from rfl] at h
  exact Except.noConfusion h

/-- C4 amended: only "stdio" yields a stream (the spawned subprocess pipe
pair); "sse" and "http" raise `NotImplementedError`. -/
theorem C4_transport_factory (command : String) (args : List String)
    (env : List (String × String)) :
    create_transport "stdio" command args env = .ok (.stdio command args env) ∧
    create_transport "sse" command args env =
      .error (.notImplementedError "SSE transport not yet implemented") ∧
    create_transport "http" command args env =
      .error (.notImplementedError "HTTP transport not yet implemented") :=
  ⟨rfl, rfl, rfl⟩

/-- C6 counterexample: with the working directory `/home`,
`validate_path("../database", "data")` is accepted by the lexical
`startswith` check ("/home/data" is a string prefix of "/home/database")
yet the result lies outside the base directory: the resolved base is not
a directory-ancestor of the returned path. -/
theorem C6_counterexample :
    InputValidator.validate_path ["home"] "../database" "data" =
      .ok ["home", "database"] ∧
    List.isPrefixOf ["home", "data"] ["home", "database"] = false :=
  ⟨rfl, rfl⟩

/-- C6 amended: every accepted path satisfies the lexical string-prefix
check `str(target).startswith(str(base))` — a strictly weaker guarantee
than directory containment, as the counterexample shows. -/
theorem C6_path_prefix (cwd : List String) (path base_path : String)
    (t : List String)
    (h : InputValidator.validate_path cwd path base_path = .ok t) :
    (renderAbs (resolvePath cwd (parsePath base_path))).data.isPrefixOf
      (renderAbs t).data = true := by
  simp only [InputValidator.validate_path] at h
  split at h
  · rename_i hcond
    cases h
    exact hcond
  · cases h

/-- Witness for C6 at a benign relative path. -/
theorem C6_path_prefix_witness :
    (renderAbs (resolvePath ["home"] (parsePath "data"))).data.isPrefixOf
      (renderAbs ["home", "data", "sub", "file.json"]).data = true :=
  C6_path_prefix ["home"] "sub/file.json" "data"
    ["home", "data", "sub", "file.json"] rfl

/-- C9 counterexample: the claim names a `transport` field, but the record
built by `to_dict` has no such key — its fifth key is `transport_type`. -/
theorem C9_counterexample :
    (instA.to_dict.map Prod.fst).contains "transport" = false ∧
    instA.to_dict.map Prod.fst =
      ["name", "provider", "active", "connected", "transport_type",
        "tools_count", "metadata"] :=
  ⟨rfl, rfl⟩

/-- C9 amended: `list()` returns one `to_dict` record per registered
instance in registry insertion order, and each record has exactly the
keys name, provider, active, connected, transport_type, tools_count,
metadata (in that order); being a pure function of the registry, repeated
calls without a mutation agree. -/
theorem C9_list_record_fields (m : MCPClientManager) :
    list_instances m = m.instances.map (fun p => p.2.to_dict) ∧
    ∀ d ∈ list_instances m,
      d.map Prod.fst =
        ["name", "provider", "active", "connected", "transport_type",
          "tools_count", "metadata"] := by
  refine ⟨rfl, ?_⟩
  intro d hd
  obtain ⟨p, _, rfl⟩ := List.mem_map.mp hd
  rfl

/-- Witness for C9 over the one-instance registry. -/
theorem C9_list_record_fields_witness :
    instA.to_dict.map Prod.fst =
      ["name", "provider", "active", "connected", "transport_type",
        "tools_count", "metadata"] :=
  (C9_list_record_fields mgrA).2 instA.to_dict
    (List.mem_map.mpr ⟨("alpha", instA), List.mem_singleton.mpr rfl, rfl⟩)

/-- A connected, active session forwards a catalogued tool call and returns
a timely child reply. -/
theorem call_tool_ok (i : MCPClientInstance) (tool : String)
    (args : List (String × PyValue)) (hconn : i.connected = true)
    (hact : i.is_active = true)
    (htool : (i.tools.map Prod.fst).contains tool = true)
    (d : Nat) (content : List ContentItem) (hd : d ≤ i.timeout) :
    i.call_tool tool args (.replies d content) = .ok content := by
  unfold MCPClientInstance.call_tool
  rw [hconn, hact, htool]
  show (if i.timeout < d then (Except.error (PyExc.timeoutError i.timeout) :
      Except PyExc (List ContentItem)) else .ok content) = .ok content
  exact if_neg (Nat.not_lt.mpr hd)

/-- C3: the guard chain of `call_tool` and the disable/enable cycle: (a)
not connected → ConfigurationError; (b) connected but inactive →
ConfigurationError; (c) connected, active, tool not in the cached
catalogue → ToolNotFoundError; (d) otherwise the call is forwarded and a
timely child reply is returned; (e) after `disable(n)` every call on n
raises ConfigurationError; (f) after a successful `enable(n)` (healthy
connected child) a call to a catalogued tool succeeds. -/
theorem C3_call_tool_guards (i : MCPClientInstance) (tool : String)
    (args : List (String × PyValue)) (child : Downstream)
    (m : MCPClientManager) (n : String) :
    (i.connected = false →
      i.call_tool tool args child =
        .error (.configurationError s!"Instance '{i.name}' not connected")) ∧
    (i.connected = true → i.is_active = false →
      i.call_tool tool args child =
        .error (.configurationError s!"Instance '{i.name}' is not active")) ∧
    (i.connected = true → i.is_active = true →
      (i.tools.map Prod.fst).contains tool = false →
      i.call_tool tool args child = .error (.toolNotFoundError tool i.name)) ∧
    (i.connected = true → i.is_active = true →
      (i.tools.map Prod.fst).contains tool = true →
      ∀ d content, d ≤ i.timeout →
        i.call_tool tool args (.replies d content) = .ok content) ∧
    (∀ m' inst', disable_instance m n = (.ok (), m') →
      m'.instances.lookup n = some inst' →
      ∃ msg, inst'.call_tool tool args child =
        .error (.configurationError msg)) ∧
    (∀ hs fetched m' inst', enable_instance m n hs fetched = (.ok (), m') →
      m'.instances.lookup n = some inst' →
      (inst'.tools.map Prod.fst).contains tool = true →
      ∀ d content, d ≤ inst'.timeout →
        inst'.call_tool tool args (.replies d content) = .ok content) := by
  refine ⟨?_, ?_, ?_, ?_, ?_, ?_⟩
  · intro hconn
    unfold MCPClientInstance.call_tool
    rw [hconn]
    rfl
  · intro hconn hact
    unfold MCPClientInstance.call_tool
    rw [hconn, hact]
    rfl
  · intro hconn hact htool
    unfold MCPClientInstance.call_tool
    rw [hconn, hact, htool]
    rfl
  · intro hconn hact htool d content hd
    exact call_tool_ok i tool args hconn hact htool d content hd
  · intro m' inst' hdis hlook
    unfold disable_instance at hdis
    rcases hl : m.instances.lookup n with _ | inst0
    · rw [hl] at hdis
      simp at hdis
    · rw [hl] at hdis
      simp only [Prod.mk.injEq] at hdis
      obtain ⟨-, rfl⟩ := hdis
      have hlook' : List.lookup n
          (dictSet m.instances n { inst0 with is_active := false }) =
          some inst' := hlook
      rw [lookup_dictSet] at hlook'
      cases hlook'
      by_cases hc : inst0.connected
      · refine ⟨s!"Instance '{inst0.name}' is not active", ?_⟩
        unfold MCPClientInstance.call_tool
        rw [show ({ inst0 with is_active := false } :
          MCPClientInstance).connected = true from hc]
        rfl
      · refine ⟨s!"Instance '{inst0.name}' not connected", ?_⟩
        unfold MCPClientInstance.call_tool
        rw [show ({ inst0 with is_active := false } :
          MCPClientInstance).connected = false from Bool.eq_false_iff.mpr hc]
        rfl
  · intro hs fetched m' inst' hen hlook htool d content hd
    unfold enable_instance at hen
    rcases hl : m.instances.lookup n with _ | inst0
    · rw [hl] at hen
      simp at hen
    · rw [hl] at hen
      simp only [Prod.mk.injEq] at hen
      by_cases hc : inst0.connected
      · rw [if_pos (show ({ inst0 with is_active := true } :
            MCPClientInstance).connected = true from hc)] at hen
        simp only [Prod.mk.injEq] at hen
        obtain ⟨-, rfl⟩ := hen
        have hlook' : List.lookup n
            (dictSet m.instances n { inst0 with is_active := true }) =
            some inst' := hlook
        rw [lookup_dictSet] at hlook'
        cases hlook'
        exact call_tool_ok { inst0 with is_active := true } tool args hc rfl
          htool d content hd
      · rw [if_neg (show ¬ ({ inst0 with is_active := true } :
            MCPClientInstance).connected = true from hc)] at hen
        rcases hcon : MCPClientInstance.connect { inst0 with is_active := true }
            hs fetched with e | j
        · rw [hcon] at hen
          simp at hen
        · rw [hcon] at hen
          simp only [Prod.mk.injEq] at hen
          obtain ⟨-, rfl⟩ := hen
          have hlook' : List.lookup n (dictSet m.instances n j) = some inst' :=
            hlook
          rw [lookup_dictSet] at hlook'
          cases hlook'
          obtain ⟨hjc, hja, -, -⟩ :=
            connect_ok_state { inst0 with is_active := true } hs fetched inst'
              hcon
          exact call_tool_ok inst' tool args hjc hja htool d content hd

/-- Witness for C3 at the disconnected instance `instB`. -/
theorem C3_call_tool_guards_witness :
    instB.call_tool "ping" [] (.raises (.transportError "boom")) =
      .error (.configurationError "Instance 'beta' not connected") :=
  (C3_call_tool_guards instB "ping" [] (.raises (.transportError "boom"))
    mgr0 "beta").1 rfl

/-- C5: an `add` whose validated instance name is already registered fails
with `ConfigurationError "Instance '<name>' already exists"` before any
side effect — the registry mapping and the on-disk files are returned
unchanged — and `mcp.router.add` maps it to the corresponding
`"Error: …"` status string. -/
theorem C5_duplicate_add (m : MCPClientManager) (disk : Disk)
    (cur : Option String) (provider : String) (config v : RawConfig)
    (n : String) (hs : HandshakeDurations) (fetched : List (String × PyValue))
    (hval : InputValidator.validate_config
      { config with provider := some provider } = .ok v)
    (hname : v.name = some n)
    (hdup : (m.instances.map Prod.fst).contains n = true) :
    add_instance m disk provider config true hs fetched =
      (.error (.configurationError s!"Instance '{n}' already exists"), m, disk) ∧
    MCPRouter.add { manager := m, disk := disk, current_instance := cur }
        provider config hs fetched =
      (s!"Error: Instance '{n}' already exists",
        { manager := m, disk := disk, current_instance := cur }) := by
  have h1 : add_instance m disk provider config true hs fetched =
      (.error (.configurationError s!"Instance '{n}' already exists"), m, disk) := by
    unfold add_instance
    rw [hval]
    simp only [hname, Option.getD_some, hdup, if_true]
  refine ⟨h1, ?_⟩
  unfold MCPRouter.add
  rw [h1]
  rfl

/-- A valid config whose name duplicates the registered "alpha". -/
def cfgDup : RawConfig :=
  { name := some "alpha", type := some "stdio", command := some "echo",
    args := some [], env := some [], isActive := some true }

/-- Witness for C5: adding `cfgDup` over the registry that already holds
"alpha". -/
theorem C5_duplicate_add_witness :
    (mgrA.instances.map Prod.fst).contains "alpha" = true ∧
    add_instance mgrA [] "prov_a" cfgDup true {} [] =
      (.error (.configurationError "Instance 'alpha' already exists"), mgrA, []) :=
  ⟨rfl, (C5_duplicate_add mgrA [] Option.none "prov_a" cfgDup
    { cfgDup with provider := some "prov_a" } "alpha" {} [] rfl rfl rfl).1⟩

/-- A minimal valid on-disk config (name "alpha", stdio `echo`). -/
def cfgLoadA : RawConfig :=
  { name := some "alpha", type := some "stdio", command := some "echo" }

/-- The same shape under the name "beta". -/
def cfgLoadB : RawConfig := { cfgLoadA with name := some "beta" }

/-- A load entry whose connect attempt times out (transport open takes
31 s against the 30 s default timeout). -/
def entryBad : LoadEntry := { config := cfgLoadA, hs := { transport_open := 31 } }

/-- A load entry whose connect succeeds immediately. -/
def entryGood : LoadEntry := { config := cfgLoadB }

/-- C7 counterexample: over two valid active configs of which the first
fails to connect, the registry holds one entry, not two — the failed
instance is omitted from `mcp.router.list`. -/
theorem C7_counterexample :
    ((load_configurations mgr0
        [("p1", [entryBad]), ("p2", [entryGood])]).instances.map Prod.fst) =
      ["beta"] ∧
    (list_instances (load_configurations mgr0
        [("p1", [entryBad]), ("p2", [entryGood])])).length ≠ 2 :=
  ⟨rfl, by decide⟩

/-- C7 amended: a failing entry does not abort the loading of later files —
the load over both files equals the load over the second alone — but the
failed instance is not registered. -/
theorem C7_load_continues_after_failure (m : MCPClientManager)
    (p1 p2 : String) (e1 e2 : LoadEntry) (err : PyExc)
    (h1 : create_instance_from_config m e1.config p1 e1.hs e1.fetched =
      .error err) :
    load_configurations m [(p1, [e1]), (p2, [e2])] =
      (load_config_file m p2 [e2]).1 := by
  have hskip : (load_config_file m p1 [e1]).1 = m := by
    unfold load_config_file
    rw [h1]
  unfold load_configurations
  simp only [List.foldl]
  rw [hskip]

/-- Witness for C7 at the concrete failing/succeeding pair of entries. -/
theorem C7_load_continues_after_failure_witness :
    load_configurations mgr0 [("p1", [entryBad]), ("p2", [entryGood])] =
      (load_config_file mgr0 "p2" [entryGood]).1 :=
  C7_load_continues_after_failure mgr0 "p1" "p2" entryBad entryGood
    (.timeoutError 30) rfl

/-- C8 counterexample: the claim says every handshake step is bounded by
the REMAINING budget of T and an excess raises `TimeoutError(T)`.  With
T = 30: (left) two steps of 20 s — the second exceeds the remaining
10 s — yet `connect` succeeds, because each awaited step gets a fresh
full T; (right) an `initialize` step of 1000 s — far beyond any budget —
also succeeds, because the source awaits `initialize()` without any
`wait_for`. -/
theorem C8_counterexample :
    (20 > 30 - 20 ∧
      instB.connect { transport_open := 20, session_open := 20 } [] =
        .ok { instB with connected := true, tools := [] }) ∧
    (1000 > 30 ∧
      instB.connect { init_step := 1000 } [] =
        .ok { instB with connected := true, tools := [] }) :=
  ⟨⟨by decide, rfl⟩, ⟨by decide, rfl⟩⟩

/-- C8 amended: transport open and session open are each bounded by a
fresh full timeout T and raise `TimeoutError(T)` on excess; the
`initialize` step is unbounded; a `tools/list` excess surfaces as
`ConfigurationError` (the converted timeout is rewrapped by the generic
handler of `connect`); on any failure the instance state is unchanged,
so the session stays disconnected. -/
theorem C8_connect_step_timeouts (i : MCPClientInstance)
    (hs : HandshakeDurations) (fetched : List (String × PyValue))
    (hconn : i.connected = false) (htr : i.transport_type = "stdio") :
    (hs.transport_open > i.timeout →
      i.connect hs fetched = .error (.timeoutError i.timeout)) ∧
    (hs.transport_open ≤ i.timeout → hs.session_open > i.timeout →
      i.connect hs fetched = .error (.timeoutError i.timeout)) ∧
    (hs.transport_open ≤ i.timeout → hs.session_open ≤ i.timeout →
      hs.tools_list > i.timeout →
      i.connect hs fetched =
        .error (.configurationError
          s!"Failed to connect: Timeout exceeded: {i.timeout}s")) ∧
    (hs.transport_open ≤ i.timeout → hs.session_open ≤ i.timeout →
      hs.tools_list ≤ i.timeout →
      i.connect hs fetched = .ok { i with connected := true, tools := fetched }) := by
  have hct : create_transport i.transport_type i.command i.args i.env =
      .ok (.stdio i.command i.args i.env) := by
    rw [htr]
    rfl
  refine ⟨?_, ?_, ?_, ?_⟩
  · intro h1
    unfold MCPClientInstance.connect
    rw [hconn, hct, if_pos h1]
    rfl
  · intro h1 h2
    unfold MCPClientInstance.connect
    rw [hconn, hct, if_neg (Nat.not_lt.mpr h1), if_pos h2]
    rfl
  · intro h1 h2 h3
    unfold MCPClientInstance.connect
    rw [hconn, hct, if_neg (Nat.not_lt.mpr h1), if_neg (Nat.not_lt.mpr h2),
      if_pos h3]
    rfl
  · intro h1 h2 h3
    unfold MCPClientInstance.connect
    rw [hconn, hct, if_neg (Nat.not_lt.mpr h1), if_neg (Nat.not_lt.mpr h2),
      if_neg (Nat.not_lt.mpr h3)]
    rfl

/-- Witness for C8: a 31 s transport open against the 30 s timeout. -/
theorem C8_connect_step_timeouts_witness :
    31 > instB.timeout ∧
    instB.connect { transport_open := 31 } [] =
      .error (.timeoutError instB.timeout) :=
  ⟨by decide,
    (C8_connect_step_timeouts instB { transport_open := 31 } [] rfl rfl).1
      (by decide)⟩

/-- The registry after the in-place `instance.is_active = True` mutation of
`enable_instance` on instance `n`. -/
def activated (m : MCPClientManager) (n : String) (inst : MCPClientInstance) :
    MCPClientManager :=
  { m with instances := dictSet m.instances n { inst with is_active := true } }

/-- C10: for a registered, disconnected instance, `enable_instance` sets
`is_active := true` in place before connecting; when the connect attempt
fails the error propagates but the activation is not rolled back — the
registry holds the instance active-but-disconnected, and
`mcp.router.enable` returns the corresponding `"Error: …"` string. -/
theorem C10_enable_no_rollback (m : MCPClientManager) (disk : Disk)
    (cur : Option String) (n : String) (inst : MCPClientInstance)
    (hs : HandshakeDurations) (fetched : List (String × PyValue)) (err : PyExc)
    (hlook : m.instances.lookup n = some inst)
    (hconn : inst.connected = false)
    (hfail : MCPClientInstance.connect { inst with is_active := true }
      hs fetched = .error err) :
    enable_instance m n hs fetched = (.error err, activated m n inst) ∧
    (activated m n inst).instances.lookup n =
      some { inst with is_active := true } ∧
    ({ inst with is_active := true } : MCPClientInstance).is_active = true ∧
    ({ inst with is_active := true } : MCPClientInstance).connected = false ∧
    MCPRouter.enable { manager := m, disk := disk, current_instance := cur }
        n hs fetched =
      ("Error: " ++ err.message,
        { manager := activated m n inst, disk := disk,
          current_instance := cur }) := by
  have hnc : ¬ ({ inst with is_active := true } :
      MCPClientInstance).connected = true := by
    have hp : ({ inst with is_active := true } :
        MCPClientInstance).connected = false := hconn
    rw [hp]
    exact Bool.false_ne_true
  have h1 : enable_instance m n hs fetched = (.error err, activated m n inst) := by
    unfold enable_instance activated
    rw [hlook]
    simp only [Prod.mk.injEq]
    rw [if_neg hnc]
    rw [hfail]
  refine ⟨h1, lookup_dictSet _ _ _, rfl, hconn, ?_⟩
  unfold MCPRouter.enable
  rw [h1]

/-- Witness for C10: enabling the disconnected "beta" with a connect that
times out leaves it active in the registry and surfaces the error. -/
theorem C10_enable_no_rollback_witness :
    enable_instance mgrB "beta" { transport_open := 31 } [] =
      (.error (.timeoutError 30), activated mgrB "beta" instB) :=
  (C10_enable_no_rollback mgrB [] Option.none "beta" instB
    { transport_open := 31 } [] (.timeoutError 30) rfl rfl rfl).1
